/-
Verification of the query-orchestration core of the rust-engine:
a shallow embedding of `agent_orchestrator.rs` and `intelligent_search.rs`
(query classification, deployment planning, scout missions, aggregation
stubs, result cache) together with theorems settling the spec claims.

Modelling conventions:
- Rust `Uuid` identifiers are modelled as `Nat`; the random `query_id` and
  the wall-clock `processing_time_ms` fields are omitted from the embedded
  `AnalysisResult` because they are nondeterministic and no claim is about
  them.
- `f32` confidence/relevance values are modelled as `ℚ`; the only float
  the embedded code produces is the literal constant `0.85`, so no float
  rounding behaviour is involved.
- `HashMap<String, AnalysisResult>` (the query cache) is modelled as an
  association list with exact-string lookup; insertion prepends, which has
  the same lookup semantics as HashMap replacement.
- The Document Store is external; it is modelled as a function from
  (pattern, limit) to `Option` of a hit list, `none` standing for `Err`.
- Rust `str::contains` (substring test) is modelled as char-list infix,
  which coincides with byte-level substring search on valid UTF-8;
  `str::len` (bytes) is modelled as char count, which coincides on the
  ASCII inputs involved here.
-/
import Mathlib

/-! ## Data model (from `agent_orchestrator.rs`) -/

inductive QueryIntent where
  | FactFinding
  | RelationshipMapping
  | TimelineAnalysis
  | RiskAssessment
  | EntityExtraction
  | DocumentClassification
  | AnomalyDetection
  | ComplianceAudit
deriving DecidableEq, Repr

inductive QueryScope where
  | Narrow
  | Focused
  | Broad
  | Exhaustive
deriving DecidableEq, Repr

inductive QueryPriority where
  | Urgent
  | High
  | Normal
  | Background
deriving DecidableEq, Repr

inductive ScoutType where
  | KeywordHunter
  | PatternDetector
  | RelationshipMapper
  | TimelineBuilder
  | EntityExtractor
  | AnomalySpotter
  | ComplianceChecker
  | SentimentAnalyzer
deriving DecidableEq, Repr

inductive FindingType where
  | DirectMatch
  | RelatedConcept
  | PersonMention
  | CompanyReference
  | DateReference
  | MonetaryAmount
  | LegalTerm
  | RiskIndicator
  | ComplianceFlag
  | Anomaly
deriving DecidableEq, Repr

structure IntelligentQuery where
  original_query : String
  intent : QueryIntent
  scope : QueryScope
  priority : QueryPriority
  context_hints : List String
  relationship_depth : Nat
  time_constraint_ms : Option Nat
deriving DecidableEq, Repr

structure ScoutFinding where
  document_id : Nat
  finding_type : FindingType
  confidence : ℚ
  excerpt : String
  context : String
  related_entities : List String
  metadata : List (String × String)
deriving DecidableEq, Repr

inductive EntityType where
  | Person
  | Company
  | Location
  | Date
  | Amount
  | Contract
  | Legal
  | Product
  | Department
  | Other (tag : String)
deriving DecidableEq, Repr

structure Entity where
  name : String
  entity_type : EntityType
  confidence : ℚ
  document_references : List Nat
  aliases : List String
  metadata : List (String × String)
deriving DecidableEq, Repr

inductive RelationshipType where
  | WorksFor
  | ContractsWith
  | ReportsTo
  | Owns
  | Negotiates
  | Communicates
  | Competes
  | Regulatory
  | Financial
  | Legal
  | Other (tag : String)
deriving DecidableEq, Repr

structure Relationship where
  from_entity : String
  to_entity : String
  relationship_type : RelationshipType
  confidence : ℚ
  supporting_documents : List Nat
  context : String
deriving DecidableEq, Repr

structure TimelineEvent where
  event_id : Nat
  timestamp : Nat
  event_type : String
  description : String
  involved_entities : List String
  source_documents : List Nat
  importance_score : ℚ
deriving DecidableEq, Repr

structure DocumentCluster where
  cluster_id : Nat
  theme : String
  document_ids : List Nat
  key_concepts : List String
  time_range : Option (Nat × Nat)
  relevance_score : ℚ
deriving DecidableEq, Repr

structure AnalysisResult where
  original_query : String
  scouts_deployed : Nat
  documents_analyzed : Nat
  findings : List ScoutFinding
  relationships : List Relationship
  entities : List Entity
  timeline : List TimelineEvent
  document_clusters : List DocumentCluster
  confidence_score : ℚ
  recommendations : List String
  dead_ends : Nat
  expansion_suggestions : List String
deriving DecidableEq, Repr

structure DeploymentStrategy where
  scout_count : Nat
  scout_types : List ScoutType
  target_clusters : Nat
  estimated_dead_ends : Nat
  parallel_processing : Bool
deriving DecidableEq, Repr

/-! ## String helpers (Rust primitives used by the engine) -/

/-- Rust `str::contains(pat)`: substring test, modelled at char level. -/
def strContains (s pat : String) : Bool :=
  decide (pat.toList <:+: s.toList)

/-- Accumulator pass of `splitWhitespace` over the char list; `cur` holds
the current word reversed. -/
def wordsAux : List Char → List Char → List String
  | [], cur => if cur.isEmpty then [] else [String.mk cur.reverse]
  | c :: rest, cur =>
      if c.isWhitespace then
        if cur.isEmpty then wordsAux rest []
        else String.mk cur.reverse :: wordsAux rest []
      else wordsAux rest (c :: cur)

/-- Rust `str::split_whitespace`: maximal runs of non-whitespace
characters, in order, with no empty pieces. -/
def splitWhitespace (s : String) : List String :=
  wordsAux s.toList []

/-- Rust `str::to_lowercase`, modelled as the per-char lowercase map. -/
def strToLower (s : String) : String :=
  String.mk (s.toList.map Char.toLower)

/-! ## Planner and scout helpers (`agent_orchestrator.rs`) -/

/-- Embeds `determine_scout_types_by_query_content` (lines 465-485): always start
with KeywordHunter, then push a scout type per fired keyword trigger. -/
def determine_scout_types_by_query_content (query : String) : List ScoutType :=
  [ScoutType.KeywordHunter]
    ++ (if strContains query "who" || strContains query "person" then
          [ScoutType.EntityExtractor] else [])
    ++ (if strContains query "when" || strContains query "date" then
          [ScoutType.TimelineBuilder] else [])
    ++ (if strContains query "relationship" || strContains query "connected" then
          [ScoutType.RelationshipMapper] else [])
    ++ (if strContains query "compliance" || strContains query "legal" then
          [ScoutType.ComplianceChecker] else [])
    ++ (if strContains query "unusual" || strContains query "anomaly" then
          [ScoutType.AnomalySpotter] else [])

/-- Embeds `extract_keywords` (lines 496-502): whitespace tokens longer than 3
characters, lowercased. The source performs no deduplication. -/
def extract_keywords (query : String) : List String :=
  ((splitWhitespace query).filter (fun w => w.length > 3)).map strToLower

/-- Embeds `generate_search_patterns` (lines 487-494). -/
def generate_search_patterns (query : String) (scout_type : ScoutType) : List String :=
  match scout_type with
  | ScoutType.KeywordHunter => extract_keywords query
  | ScoutType.EntityExtractor => [query]
  | ScoutType.RelationshipMapper => [query]
  | _ => [query]

/-- Embeds `assess_and_plan_deployment` (lines 295-350). `doc_count_result` is the
outcome of `storage.get_document_count()`, `none` standing for `Err`; the
source applies `unwrap_or(0)`. -/
def assess_and_plan_deployment (query : IntelligentQuery)
    (doc_count_result : Option Nat) : DeploymentStrategy :=
  let total_docs := doc_count_result.getD 0
  match query.scope, query.priority with
  | QueryScope.Exhaustive, QueryPriority.Background =>
      { scout_count := 8
        scout_types := [ScoutType.KeywordHunter, ScoutType.PatternDetector,
          ScoutType.RelationshipMapper, ScoutType.EntityExtractor,
          ScoutType.TimelineBuilder, ScoutType.AnomalySpotter,
          ScoutType.ComplianceChecker, ScoutType.SentimentAnalyzer]
        target_clusters := Nat.max (total_docs / 100) 1
        estimated_dead_ends := 2
        parallel_processing := true }
  | QueryScope.Focused, QueryPriority.Urgent =>
      { scout_count := 3
        scout_types := [ScoutType.KeywordHunter, ScoutType.EntityExtractor,
          ScoutType.RelationshipMapper]
        target_clusters := 1
        estimated_dead_ends := 0
        parallel_processing := true }
  | _, _ =>
      { scout_count := 5
        scout_types := determine_scout_types_by_query_content query.original_query
        target_clusters := Nat.min (Nat.max (total_docs / 50) 1) 10
        estimated_dead_ends := 1
        parallel_processing := true }

/-! ## Scout missions and the Document Store boundary -/

/-- One hit of the Document Store `search(pattern, limit)` call, with the
fields the orchestrator reads (`document_id`, `relevance_score`,
`excerpt`, `context`). -/
structure StoreHit where
  document_id : Nat
  relevance_score : ℚ
  excerpt : String
  context : Option String
deriving DecidableEq, Repr

/-- The external Document Store: `search_documents(pattern, limit)`;
`none` models an `Err` return. -/
def Store : Type := String → Nat → Option (List StoreHit)

/-- Embeds `execute_scout_mission` (lines 392-462), returning the findings list
together with the final value of the local `dead_end_count` variable.
Only the KeywordHunter arm does work in the source; the EntityExtractor /
RelationshipMapper / catch-all arms push no findings and touch no
counters. -/
def execute_scout_mission (store : Store) (query : IntelligentQuery)
    (scout_type : ScoutType) : List ScoutFinding × Nat :=
  match scout_type with
  | ScoutType.KeywordHunter =>
      (extract_keywords query.original_query).foldl
        (fun acc keyword =>
          match store keyword 50 with
          | some results =>
              (acc.1 ++ results.map (fun r =>
                  { document_id := r.document_id
                    finding_type := FindingType.DirectMatch
                    confidence := r.relevance_score
                    excerpt := r.excerpt
                    context := r.context.getD ""
                    related_entities := [keyword]
                    metadata := [] }),
               if results.isEmpty then acc.2 + 1 else acc.2)
          | none => (acc.1, acc.2 + 1))
        ([], 0)
  | _ => ([], 0)

/-- Sum of the `dead_end_count` counters accumulated by the workers of a
deployment plan (the source computes each counter in
`execute_scout_mission` and then drops it). -/
def worker_dead_end_sum (store : Store) (query : IntelligentQuery)
    (strategy : DeploymentStrategy) : Nat :=
  (strategy.scout_types.map
    (fun t => (execute_scout_mission store query t).2)).sum

/-! ## Cache and aggregation stubs (`agent_orchestrator.rs` lines 505-541) -/

/-- Embeds `check_query_cache` (lines 505-507): exact-string lookup in the query
cache; a hit is returned `.cloned()` (by value). -/
def check_query_cache (cache : List (String × AnalysisResult))
    (query : String) : Option AnalysisResult :=
  List.lookup query cache

/-- Embeds `cache_result` (lines 509-511): HashMap insert keyed on the exact query
string; prepending gives the same lookup behaviour. -/
def cache_result (query : String) (result : AnalysisResult)
    (cache : List (String × AnalysisResult)) : List (String × AnalysisResult) :=
  (query, result) :: cache

/-- Embeds `collect_scout_findings` (lines 513-516): the source ignores the scout
ids and returns `Ok(vec![])`. -/
def collect_scout_findings (scout_ids : List Nat) : List (List ScoutFinding) :=
  []

/-- Embeds `analyze_relationships` (lines 518-521): stub `Ok((vec![], vec![]))`. -/
def analyze_relationships (findings : List (List ScoutFinding)) :
    List Relationship × List Entity :=
  ([], [])

/-- Embeds `build_timeline` (lines 523-525): stub `Ok(vec![])`. -/
def build_timeline (findings : List (List ScoutFinding)) : List TimelineEvent :=
  []

/-- Embeds `identify_document_clusters` (lines 527-529): stub `Ok(vec![])`. -/
def identify_document_clusters (findings : List (List ScoutFinding)) :
    List DocumentCluster :=
  []

/-- Embeds `calculate_confidence_score` (lines 531-533): the source returns the
constant `0.85` regardless of the findings. -/
def calculate_confidence_score (findings : List (List ScoutFinding)) : ℚ :=
  0.85

/-- Embeds `generate_recommendations` (lines 535-537): constant stub. -/
def generate_recommendations (query : IntelligentQuery)
    (findings : List (List ScoutFinding)) : List String :=
  ["Expand search to include related terms"]

/-- Embeds `generate_expansion_suggestions` (lines 539-541): constant stub. -/
def generate_expansion_suggestions (query : IntelligentQuery)
    (findings : List (List ScoutFinding)) : List String :=
  ["Search for related entities"]

/-! ## Main orchestration (`execute_intelligent_query`, lines 229-292) -/

/-- Embeds `execute_intelligent_query`: cache check, planning, scout deployment,
collection, aggregation, cache write. Returns the result, the cache after
the call, and a flag recording whether the scout pool was invoked
(`false` exactly on the cache-hit early return). `doc_count_result` is the
corpus-metadata call outcome consumed by planning. The spawned scout
mission outputs are dropped by the source (`collect_scout_findings`
returns the empty list), so the Store does not appear here. -/
def execute_intelligent_query (cache : List (String × AnalysisResult))
    (doc_count_result : Option Nat) (query : IntelligentQuery) :
    AnalysisResult × List (String × AnalysisResult) × Bool :=
  match check_query_cache cache query.original_query with
  | some cached_result => (cached_result, cache, false)
  | none =>
      let strategy := assess_and_plan_deployment query doc_count_result
      let scouts := List.range strategy.scout_types.length
      let findings := collect_scout_findings scouts
      let rel_ent := analyze_relationships findings
      let timeline := build_timeline findings
      let clusters := identify_document_clusters findings
      let confidence_score := calculate_confidence_score findings
      let result : AnalysisResult :=
        { original_query := query.original_query
          scouts_deployed := strategy.scout_count
          documents_analyzed := (findings.map List.length).sum
          findings := findings.flatten
          relationships := rel_ent.1
          entities := rel_ent.2
          timeline := timeline
          document_clusters := clusters
          confidence_score := confidence_score
          recommendations := generate_recommendations query findings
          dead_ends := strategy.estimated_dead_ends
          expansion_suggestions := generate_expansion_suggestions query findings }
      (result, cache_result query.original_query result cache, true)

/-! ## Query parsing (`intelligent_search.rs`) -/

/-- Embeds `SearchQuery` (intelligent_search.rs lines 19-29). -/
structure SearchQuery where
  query : String
  context : Option String
  intent_hint : Option String
  scope : Option String
  priority : Option String
  relationship_depth : Option Nat
  time_limit_ms : Option Nat
  include_suggestions : Option Bool
  user_id : Option String
deriving DecidableEq, Repr

/-- Embeds `infer_query_intent` (lines 389-426): hint is matched after
lowercasing, else keyword triggers over the lowercased query. -/
def infer_query_intent (query : String) (hint : Option String) : QueryIntent :=
  match hint with
  | some h =>
      match strToLower h with
      | "fact" => QueryIntent.FactFinding
      | "facts" => QueryIntent.FactFinding
      | "relationship" => QueryIntent.RelationshipMapping
      | "connections" => QueryIntent.RelationshipMapping
      | "timeline" => QueryIntent.TimelineAnalysis
      | "chronology" => QueryIntent.TimelineAnalysis
      | "risk" => QueryIntent.RiskAssessment
      | "risks" => QueryIntent.RiskAssessment
      | "entities" => QueryIntent.EntityExtraction
      | "people" => QueryIntent.EntityExtraction
      | "companies" => QueryIntent.EntityExtraction
      | "classify" => QueryIntent.DocumentClassification
      | "categorize" => QueryIntent.DocumentClassification
      | "anomaly" => QueryIntent.AnomalyDetection
      | "unusual" => QueryIntent.AnomalyDetection
      | "compliance" => QueryIntent.ComplianceAudit
      | "regulatory" => QueryIntent.ComplianceAudit
      | _ => QueryIntent.FactFinding
  | none =>
      let ql := strToLower query
      if strContains ql "who" || strContains ql "person" || strContains ql "people" then
        QueryIntent.EntityExtraction
      else if strContains ql "when" || strContains ql "timeline" || strContains ql "chronological" then
        QueryIntent.TimelineAnalysis
      else if strContains ql "relationship" || strContains ql "connected" || strContains ql "link" then
        QueryIntent.RelationshipMapping
      else if strContains ql "risk" || strContains ql "danger" || strContains ql "threat" then
        QueryIntent.RiskAssessment
      else if strContains ql "compliance" || strContains ql "regulation" || strContains ql "legal" then
        QueryIntent.ComplianceAudit
      else if strContains ql "unusual" || strContains ql "anomaly" || strContains ql "strange" then
        QueryIntent.AnomalyDetection
      else if strContains ql "type" || strContains ql "category" || strContains ql "classify" then
        QueryIntent.DocumentClassification
      else
        QueryIntent.FactFinding

/-- Embeds `parse_query_scope` (lines 428-436): exact (case-sensitive) match on
the lowercase vocabulary, defaulting to Focused. -/
def parse_query_scope (scope_hint : Option String) : QueryScope :=
  match scope_hint with
  | some "narrow" => QueryScope.Narrow
  | some "focused" => QueryScope.Focused
  | some "broad" => QueryScope.Broad
  | some "exhaustive" => QueryScope.Exhaustive
  | _ => QueryScope.Focused

/-- Embeds `parse_query_priority` (lines 438-446): exact (case-sensitive) match on
the lowercase vocabulary, defaulting to Normal. -/
def parse_query_priority (priority_hint : Option String) : QueryPriority :=
  match priority_hint with
  | some "urgent" => QueryPriority.Urgent
  | some "high" => QueryPriority.High
  | some "normal" => QueryPriority.Normal
  | some "background" => QueryPriority.Background
  | _ => QueryPriority.Normal

/-- Embeds `extract_context_hints` (lines 448-455): the first five whitespace
tokens longer than 4 characters, lowercased. -/
def extract_context_hints (query : String) : List String :=
  ((((splitWhitespace query).filter (fun w => w.length > 4)).take 5).map
    strToLower)

/-- Embeds `parse_search_request` (lines 368-387); the source returns `Result`
but every branch is `Ok`. -/
def parse_search_request (request : SearchQuery) : IntelligentQuery :=
  { original_query := request.query
    intent := infer_query_intent request.query request.intent_hint
    scope := parse_query_scope request.scope
    priority := parse_query_priority request.priority
    context_hints :=
      match request.context with
      | some c => [c]
      | none => extract_context_hints request.query
    relationship_depth := request.relationship_depth.getD 2
    time_constraint_ms := request.time_limit_ms }

/-! ## Helper constructions and lemmas -/

/-- Test-query builder used by concrete witnesses: the classifier fields
that no claim constrains are fixed to the parser defaults. -/
def mkQuery (s : String) (sc : QueryScope) (p : QueryPriority) : IntelligentQuery :=
  { original_query := s
    intent := QueryIntent.FactFinding
    scope := sc
    priority := p
    context_hints := []
    relationship_depth := 2
    time_constraint_ms := none }

/-- Document Store that answers every search with an empty hit list. -/
def emptyStore : Store := fun _ _ => some []

/-- Closed form of the result built on a cache miss: since
`collect_scout_findings` returns the empty list and the aggregation stubs
are constant, only the planner output varies. -/
def fresh_result (q : IntelligentQuery) (docs : Option Nat) : AnalysisResult :=
  { original_query := q.original_query
    scouts_deployed := (assess_and_plan_deployment q docs).scout_count
    documents_analyzed := 0
    findings := []
    relationships := []
    entities := []
    timeline := []
    document_clusters := []
    confidence_score := 0.85
    recommendations := ["Expand search to include related terms"]
    dead_ends := (assess_and_plan_deployment q docs).estimated_dead_ends
    expansion_suggestions := ["Search for related entities"] }

lemma execute_miss (cache : List (String × AnalysisResult)) (docs : Option Nat)
    (q : IntelligentQuery)
    (h : check_query_cache cache q.original_query = none) :
    execute_intelligent_query cache docs q
      = (fresh_result q docs,
         (q.original_query, fresh_result q docs) :: cache, true) := by
  unfold execute_intelligent_query
  rw [h]
  rfl

lemma execute_hit (cache : List (String × AnalysisResult)) (docs : Option Nat)
    (q : IntelligentQuery) (r : AnalysisResult)
    (h : check_query_cache cache q.original_query = some r) :
    execute_intelligent_query cache docs q = (r, cache, false) := by
  unfold execute_intelligent_query
  rw [h]

lemma check_query_cache_insert_self (cache : List (String × AnalysisResult))
    (q : String) (r : AnalysisResult) :
    check_query_cache ((q, r) :: cache) q = some r := by
  simp [check_query_cache, List.lookup]

lemma check_query_cache_insert_ne (cache : List (String × AnalysisResult))
    (q q2 : String) (r : AnalysisResult) (h : q2 ≠ q) :
    check_query_cache ((q, r) :: cache) q2 = check_query_cache cache q2 := by
  have hb : (q2 == q) = false := beq_eq_false_iff_ne.mpr h
  simp [check_query_cache, List.lookup, hb]

lemma determine_scout_types_length_bounds (query : String) :
    1 ≤ (determine_scout_types_by_query_content query).length ∧
      (determine_scout_types_by_query_content query).length ≤ 6 := by
  unfold determine_scout_types_by_query_content
  split_ifs <;> simp

/-! ## Claim C1 -/

/-- Claim C1, counterexample: for the adaptive query "hello" (scope
Focused, priority Normal) only the always-included KeywordHunter trigger
applies, so the plan has a worker-kind list of length 1 with no padding,
while `scouts_deployed` in the produced result is the fixed count 5.
Hence `scoutsDeployed = len(plan.workerKinds)` fails and the adaptive
kind list does not reach 5. -/
theorem C1_counterexample :
    (assess_and_plan_deployment (mkQuery "hello" QueryScope.Focused QueryPriority.Normal)
        (some 0)).scout_count = 5 ∧
    (assess_and_plan_deployment (mkQuery "hello" QueryScope.Focused QueryPriority.Normal)
        (some 0)).scout_types.length = 1 ∧
    (execute_intelligent_query [] (some 0)
        (mkQuery "hello" QueryScope.Focused QueryPriority.Normal)).1.scouts_deployed = 5 := by
  refine ⟨rfl, ?_, rfl⟩
  decide

/-- Claim C1, amended: on every cache miss, `scouts_deployed` in the
result equals the fixed `scout_count` of the deployment plan (8, 3 or 5
by branch), not the length of the worker-kind list; on the adaptive path
the worker-kind list carries 1 + (number of fired triggers) kinds, i.e.
between 1 and 6, with no padding to 5. -/
theorem C1_amended (cache : List (String × AnalysisResult)) (docs : Option Nat)
    (q : IntelligentQuery)
    (hmiss : check_query_cache cache q.original_query = none) :
    (execute_intelligent_query cache docs q).1.scouts_deployed
        = (assess_and_plan_deployment q docs).scout_count ∧
    1 ≤ (determine_scout_types_by_query_content q.original_query).length ∧
    (determine_scout_types_by_query_content q.original_query).length ≤ 6 := by
  refine ⟨?_, (determine_scout_types_length_bounds q.original_query).1,
    (determine_scout_types_length_bounds q.original_query).2⟩
  rw [execute_miss cache docs q hmiss]
  rfl

/-- Claim C1, witness for the amended theorem at a concrete input. -/
theorem C1_witness :
    (execute_intelligent_query [] (some 200)
        (mkQuery "summarize the merger" QueryScope.Broad QueryPriority.High)).1.scouts_deployed
      = (assess_and_plan_deployment
          (mkQuery "summarize the merger" QueryScope.Broad QueryPriority.High)
          (some 200)).scout_count ∧
    1 ≤ (determine_scout_types_by_query_content "summarize the merger").length ∧
    (determine_scout_types_by_query_content "summarize the merger").length ≤ 6 :=
  C1_amended [] (some 200) (mkQuery "summarize the merger" QueryScope.Broad QueryPriority.High) rfl

/-! ## Claim C2 -/

/-- Claim C2, counterexample: `calculate_confidence_score` returns the
constant 0.85, so with no findings the overall confidence is 0.85, not 0,
and it is never the mean of the finding confidences. -/
theorem C2_counterexample :
    calculate_confidence_score [] = (0.85 : ℚ) ∧
    (0.85 : ℚ) ≠ 0 ∧
    (execute_intelligent_query [] (some 0)
        (mkQuery "quarterly revenue" QueryScope.Narrow QueryPriority.Normal)).1.confidence_score
      = (0.85 : ℚ) := by
  refine ⟨rfl, by norm_num, rfl⟩

/-- Claim C2, amended: the overall confidence score of every cache-miss
orchestration run is the constant 0.85, whatever the findings; the
mean-of-confidences rule is not implemented. -/
theorem C2_amended (cache : List (String × AnalysisResult)) (docs : Option Nat)
    (q : IntelligentQuery)
    (hmiss : check_query_cache cache q.original_query = none) :
    (execute_intelligent_query cache docs q).1.confidence_score = (0.85 : ℚ) ∧
    ∀ findings : List (List ScoutFinding), calculate_confidence_score findings = (0.85 : ℚ) := by
  refine ⟨?_, fun _ => rfl⟩
  rw [execute_miss cache docs q hmiss]
  rfl

/-- Claim C2, witness for the amended theorem at a concrete input. -/
theorem C2_witness :
    (execute_intelligent_query [] (some 7)
        (mkQuery "board minutes" QueryScope.Focused QueryPriority.High)).1.confidence_score
      = (0.85 : ℚ) ∧
    ∀ findings : List (List ScoutFinding), calculate_confidence_score findings = (0.85 : ℚ) :=
  C2_amended [] (some 7) (mkQuery "board minutes" QueryScope.Focused QueryPriority.High) rfl

/-! ## Claim C3 -/

/-- Claim C3, counterexample: for the query "hello there" (Focused,
Urgent) against a store with no matches, the deployed workers accumulate
2 dead ends in total (the KeywordHunter hits two empty searches), yet the
result reports the pre-planned estimate 0. -/
theorem C3_counterexample :
    worker_dead_end_sum emptyStore
        (mkQuery "hello there" QueryScope.Focused QueryPriority.Urgent)
        (assess_and_plan_deployment
          (mkQuery "hello there" QueryScope.Focused QueryPriority.Urgent) (some 0)) = 2 ∧
    (execute_intelligent_query [] (some 0)
        (mkQuery "hello there" QueryScope.Focused QueryPriority.Urgent)).1.dead_ends = 0 := by
  exact ⟨by decide, rfl⟩

/-- Claim C3, amended: the dead-end count of every cache-miss run equals
the estimated dead-end allowance of the deployment plan (2, 0 or 1 by
branch); the per-worker dead-end counters are computed and then
discarded. -/
theorem C3_amended (cache : List (String × AnalysisResult)) (docs : Option Nat)
    (q : IntelligentQuery)
    (hmiss : check_query_cache cache q.original_query = none) :
    (execute_intelligent_query cache docs q).1.dead_ends
      = (assess_and_plan_deployment q docs).estimated_dead_ends := by
  rw [execute_miss cache docs q hmiss]
  rfl

/-- Claim C3, witness for the amended theorem at a concrete input. -/
theorem C3_witness :
    (execute_intelligent_query [] (some 0)
        (mkQuery "vendor contracts" QueryScope.Exhaustive QueryPriority.Background)).1.dead_ends
      = (assess_and_plan_deployment
          (mkQuery "vendor contracts" QueryScope.Exhaustive QueryPriority.Background)
          (some 0)).estimated_dead_ends :=
  C3_amended [] (some 0)
    (mkQuery "vendor contracts" QueryScope.Exhaustive QueryPriority.Background) rfl

/-! ## Claim C4 -/

/-- Claim C4: every query with scope Focused and priority Urgent is
planned with exactly the worker kinds KeywordHunter, EntityExtractor,
RelationshipMapper, a worker count of 3, one target cluster and a
dead-end allowance of 0. -/
theorem C4_focused_urgent_plan (q : IntelligentQuery) (docs : Option Nat)
    (h1 : q.scope = QueryScope.Focused) (h2 : q.priority = QueryPriority.Urgent) :
    assess_and_plan_deployment q docs
      = { scout_count := 3
          scout_types := [ScoutType.KeywordHunter, ScoutType.EntityExtractor,
            ScoutType.RelationshipMapper]
          target_clusters := 1
          estimated_dead_ends := 0
          parallel_processing := true } := by
  rcases q with ⟨oq, it, sc, pr, ch, rd, tc⟩
  dsimp at h1 h2
  subst h1
  subst h2
  rfl

/-- Claim C4, witness: the TechCorp scenario query from the spec. -/
theorem C4_witness :
    assess_and_plan_deployment
        (mkQuery "who is negotiating the TechCorp acquisition"
          QueryScope.Focused QueryPriority.Urgent) (some 0)
      = { scout_count := 3
          scout_types := [ScoutType.KeywordHunter, ScoutType.EntityExtractor,
            ScoutType.RelationshipMapper]
          target_clusters := 1
          estimated_dead_ends := 0
          parallel_processing := true } :=
  C4_focused_urgent_plan
    (mkQuery "who is negotiating the TechCorp acquisition"
      QueryScope.Focused QueryPriority.Urgent) (some 0) rfl rfl

/-! ## Claim C5 -/

/-- Claim C5, counterexample: the query has six words longer than 4
characters and the derived hints are the FIRST five of them in order of
appearance; the strictly longest word of the query, which any choice of
"the five longest words" must contain, is missing from the hints. -/
theorem C5_counterexample :
    extract_context_hints "abcde fghij klmno pqrst uvwxy extraordinarily"
      = ["abcde", "fghij", "klmno", "pqrst", "uvwxy"] ∧
    "extraordinarily" ∈ splitWhitespace "abcde fghij klmno pqrst uvwxy extraordinarily" ∧
    "extraordinarily".length > 4 ∧
    ∀ w ∈ extract_context_hints "abcde fghij klmno pqrst uvwxy extraordinarily",
      w.length < "extraordinarily".length := by
  refine ⟨by decide, by decide, by decide, by decide⟩

/-- Claim C5, amended: when no explicit context is supplied, the derived
context hints are the first five words of the query longer than 4
characters, in order of appearance, lowercased (not the five longest). -/
theorem C5_amended (req : SearchQuery) (h : req.context = none) :
    (parse_search_request req).context_hints
      = ((((splitWhitespace req.query).filter (fun w => w.length > 4)).map
            strToLower).take 5) := by
  simp [parse_search_request, h, extract_context_hints, List.map_take]

/-- Claim C5, witness for the amended theorem at a concrete request. -/
theorem C5_witness :
    (parse_search_request
        { query := "comprehensive litigation exposure review"
          context := none
          intent_hint := none
          scope := none
          priority := none
          relationship_depth := none
          time_limit_ms := none
          include_suggestions := none
          user_id := none }).context_hints
      = ((((splitWhitespace "comprehensive litigation exposure review").filter
            (fun w => w.length > 4)).map strToLower).take 5) :=
  C5_amended
    { query := "comprehensive litigation exposure review"
      context := none
      intent_hint := none
      scope := none
      priority := none
      relationship_depth := none
      time_limit_ms := none
      include_suggestions := none
      user_id := none } rfl

/-! ## Claim C6 -/

/-- Claim C6, counterexample: keyword extraction performs no
deduplication, so the query "good good" yields the duplicate pattern list
["good", "good"], which is also what the KeywordHunter receives as its
search patterns. -/
theorem C6_counterexample :
    extract_keywords "good good" = ["good", "good"] ∧
    ¬ (extract_keywords "good good").Nodup ∧
    generate_search_patterns "good good" ScoutType.KeywordHunter = ["good", "good"] := by
  refine ⟨by decide, by decide, by decide⟩

/-- Claim C6, amended: the KeywordHunter search patterns are exactly the
whitespace tokens of the query longer than 3 characters, lowercased, in
order, with duplicates retained; membership is characterised by the
tokens, but distinctness is not guaranteed. -/
theorem C6_amended (q : String) :
    generate_search_patterns q ScoutType.KeywordHunter = extract_keywords q ∧
    ∀ w : String, w ∈ extract_keywords q ↔
      ∃ v, (v ∈ splitWhitespace q ∧ v.length > 3) ∧ strToLower v = w := by
  refine ⟨rfl, fun w => ?_⟩
  simp [extract_keywords, List.mem_map, List.mem_filter]

/-! ## Claim C7 -/

/-- Claim C7, counterexample: scope and priority hints are matched
case-sensitively: "Narrow" falls through to the Focused default while
"narrow" resolves to Narrow, and "Urgent" falls through to the Normal
default while "urgent" resolves to Urgent. -/
theorem C7_counterexample :
    parse_query_scope (some "Narrow") = QueryScope.Focused ∧
    parse_query_scope (some "narrow") = QueryScope.Narrow ∧
    parse_query_priority (some "Urgent") = QueryPriority.Normal ∧
    parse_query_priority (some "urgent") = QueryPriority.Urgent := by
  refine ⟨by decide, by decide, by decide, by decide⟩

/-- Claim C7, amended: scope and priority hints are matched by exact
(case-sensitive) equality against the lowercase vocabulary; any
non-matching hint, and an absent hint, defaults to scope Focused and
priority Normal. -/
theorem C7_amended (s p : String)
    (hs : s ∉ ["narrow", "focused", "broad", "exhaustive"])
    (hp : p ∉ ["urgent", "high", "normal", "background"]) :
    parse_query_scope (some s) = QueryScope.Focused ∧
    parse_query_priority (some p) = QueryPriority.Normal ∧
    parse_query_scope none = QueryScope.Focused ∧
    parse_query_priority none = QueryPriority.Normal := by
  refine ⟨?_, ?_, rfl, rfl⟩
  · unfold parse_query_scope
    split <;> simp_all
  · unfold parse_query_priority
    split <;> simp_all

/-- Claim C7, witness for the amended theorem at concrete
(uppercase-variant) hints. -/
theorem C7_witness :
    parse_query_scope (some "BROAD") = QueryScope.Focused ∧
    parse_query_priority (some "URGENT") = QueryPriority.Normal ∧
    parse_query_scope none = QueryScope.Focused ∧
    parse_query_priority none = QueryPriority.Normal :=
  ⟨(C7_amended "BROAD" "URGENT" (by decide) (by decide)).1,
   (C7_amended "BROAD" "URGENT" (by decide) (by decide)).2.1,
   (C7_amended "BROAD" "URGENT" (by decide) (by decide)).2.2.1,
   (C7_amended "BROAD" "URGENT" (by decide) (by decide)).2.2.2⟩

/-! ## Claim C8 -/

/-- Claim C8: a run on a cache miss invokes the scout pool and stores its
result under the exact query string; re-submitting the byte-identical
query string then returns that cached result by value with the pool not
invoked, while a query string differing only in case is a distinct key
and re-executes the pipeline. -/
theorem C8_cache_idempotence (cache : List (String × AnalysisResult))
    (docs docs2 docs3 : Option Nat) (q q2 : IntelligentQuery)
    (hmiss : check_query_cache cache q.original_query = none)
    (hmiss2 : check_query_cache cache q2.original_query = none)
    (hne : q2.original_query ≠ q.original_query) :
    (execute_intelligent_query cache docs q).2.2 = true ∧
    execute_intelligent_query (execute_intelligent_query cache docs q).2.1 docs2 q
      = ((execute_intelligent_query cache docs q).1,
         (execute_intelligent_query cache docs q).2.1, false) ∧
    (execute_intelligent_query
        (execute_intelligent_query cache docs q).2.1 docs3 q2).2.2 = true := by
  have e1 := execute_miss cache docs q hmiss
  refine ⟨by rw [e1], ?_, ?_⟩
  · rw [e1]
    exact execute_hit _ docs2 q (fresh_result q docs)
      (check_query_cache_insert_self cache q.original_query (fresh_result q docs))
  · rw [e1]
    have hm2 : check_query_cache
        ((q.original_query, fresh_result q docs) :: cache) q2.original_query = none := by
      rw [check_query_cache_insert_ne cache q.original_query q2.original_query _ hne]
      exact hmiss2
    rw [execute_miss _ docs3 q2 hm2]

/-- Claim C8, witness: "find john" is cached and replayed from the cache;
"Find John" is a distinct key and re-runs the pipeline. -/
theorem C8_witness :
    (execute_intelligent_query [] (some 0)
        (mkQuery "find john" QueryScope.Focused QueryPriority.Urgent)).2.2 = true ∧
    execute_intelligent_query
        (execute_intelligent_query [] (some 0)
          (mkQuery "find john" QueryScope.Focused QueryPriority.Urgent)).2.1 (some 0)
        (mkQuery "find john" QueryScope.Focused QueryPriority.Urgent)
      = ((execute_intelligent_query [] (some 0)
            (mkQuery "find john" QueryScope.Focused QueryPriority.Urgent)).1,
         (execute_intelligent_query [] (some 0)
            (mkQuery "find john" QueryScope.Focused QueryPriority.Urgent)).2.1, false) ∧
    (execute_intelligent_query
        (execute_intelligent_query [] (some 0)
          (mkQuery "find john" QueryScope.Focused QueryPriority.Urgent)).2.1 (some 0)
        (mkQuery "Find John" QueryScope.Focused QueryPriority.Urgent)).2.2 = true :=
  C8_cache_idempotence [] (some 0) (some 0) (some 0)
    (mkQuery "find john" QueryScope.Focused QueryPriority.Urgent)
    (mkQuery "Find John" QueryScope.Focused QueryPriority.Urgent)
    rfl rfl (by decide)

/-! ## Claim C9 -/

/-- Claim C9: planning is total and degrades gracefully: a failed
corpus-metadata call (modelled by `none`) plans exactly as a
zero-document corpus does, and for scope Exhaustive with priority
Background the target cluster count is max(0/100, 1) = 1, with the
natural-number division total by construction. -/
theorem C9_planning_total (q : IntelligentQuery)
    (h1 : q.scope = QueryScope.Exhaustive) (h2 : q.priority = QueryPriority.Background) :
    (∀ q' : IntelligentQuery, assess_and_plan_deployment q' none
        = assess_and_plan_deployment q' (some 0)) ∧
    (assess_and_plan_deployment q none).target_clusters = 1 ∧
    (assess_and_plan_deployment q none).target_clusters = Nat.max (0 / 100) 1 := by
  refine ⟨fun q' => rfl, ?_, ?_⟩
  · rcases q with ⟨oq, it, sc, pr, ch, rd, tc⟩
    dsimp at h1 h2
    subst h1
    subst h2
    rfl
  · rcases q with ⟨oq, it, sc, pr, ch, rd, tc⟩
    dsimp at h1 h2
    subst h1
    subst h2
    rfl

/-- Claim C9, witness at a concrete Exhaustive/Background query. -/
theorem C9_witness :
    (∀ q' : IntelligentQuery, assess_and_plan_deployment q' none
        = assess_and_plan_deployment q' (some 0)) ∧
    (assess_and_plan_deployment
        (mkQuery "full archive sweep" QueryScope.Exhaustive QueryPriority.Background)
        none).target_clusters = 1 ∧
    (assess_and_plan_deployment
        (mkQuery "full archive sweep" QueryScope.Exhaustive QueryPriority.Background)
        none).target_clusters = Nat.max (0 / 100) 1 :=
  C9_planning_total
    (mkQuery "full archive sweep" QueryScope.Exhaustive QueryPriority.Background) rfl rfl

/-! ## Claim C10 -/

/-- Claim C10: on every cache miss the finding-collection step returns
the empty list whatever scouts ran, so the produced result has empty
findings, entities, relationships, timeline and cluster lists and zero
documents analyzed. -/
theorem C10_empty_collection (cache : List (String × AnalysisResult))
    (docs : Option Nat) (q : IntelligentQuery)
    (hmiss : check_query_cache cache q.original_query = none) :
    collect_scout_findings (List.range
        (assess_and_plan_deployment q docs).scout_types.length) = [] ∧
    (execute_intelligent_query cache docs q).1.findings = [] ∧
    (execute_intelligent_query cache docs q).1.entities = [] ∧
    (execute_intelligent_query cache docs q).1.relationships = [] ∧
    (execute_intelligent_query cache docs q).1.timeline = [] ∧
    (execute_intelligent_query cache docs q).1.document_clusters = [] ∧
    (execute_intelligent_query cache docs q).1.documents_analyzed = 0 := by
  rw [execute_miss cache docs q hmiss]
  exact ⟨rfl, rfl, rfl, rfl, rfl, rfl, rfl⟩

/-- Claim C10, witness at a concrete cache-missing query. -/
theorem C10_witness :
    collect_scout_findings (List.range
        (assess_and_plan_deployment
          (mkQuery "project overview" QueryScope.Broad QueryPriority.Normal)
          (some 42)).scout_types.length) = [] ∧
    (execute_intelligent_query [] (some 42)
        (mkQuery "project overview" QueryScope.Broad QueryPriority.Normal)).1.findings = [] ∧
    (execute_intelligent_query [] (some 42)
        (mkQuery "project overview" QueryScope.Broad QueryPriority.Normal)).1.entities = [] ∧
    (execute_intelligent_query [] (some 42)
        (mkQuery "project overview" QueryScope.Broad QueryPriority.Normal)).1.relationships = [] ∧
    (execute_intelligent_query [] (some 42)
        (mkQuery "project overview" QueryScope.Broad QueryPriority.Normal)).1.timeline = [] ∧
    (execute_intelligent_query [] (some 42)
        (mkQuery "project overview" QueryScope.Broad QueryPriority.Normal)).1.document_clusters = [] ∧
    (execute_intelligent_query [] (some 42)
        (mkQuery "project overview" QueryScope.Broad QueryPriority.Normal)).1.documents_analyzed = 0 :=
  C10_empty_collection [] (some 42)
    (mkQuery "project overview" QueryScope.Broad QueryPriority.Normal) rfl
